import Mathlib

/-!
Shallow embedding of the scoring and signal-derivation core of
`src/reputation_engine.py` (the canonical, later variant of the two scoring
files, per the specification), together with theorems settling the claims
about it.

Modelling conventions:
* Etherscan records are flat dictionaries; the fields the core reads are
  modelled as structure fields.  The Python key `to` is a Lean keyword, so it
  is rendered as the field `toAddress` (and `from` as `fromAddress`).  A field
  read with `dict.get(key)` (which may be missing or empty) is an
  `Option String`; Python truthiness of such a value (`None` and `""` are
  falsy) is `optTruthy`.
* `int(s)` parses of numeric string fields are modelled by storing the parsed
  integer directly (`timeStamp`, `value` : `Int`).
* Python `s.lower()` on the ASCII hexadecimal addresses involved is
  `pyLower`, a character-wise lower-casing of the string.
* `datetime.datetime.now()` is an injected parameter `now : Int` (epoch
  seconds), and `datetime.fromtimestamp ts` is the epoch second `ts` itself;
  `(now_dt - first_tx_date).days` is floor division of the elapsed seconds by
  86400, i.e. `Int.fdiv _ 86400` (Python `timedelta.days` floors).
* Python float arithmetic on the failure rate and the rug-pull ratio is
  modelled exactly over `ℚ`; `int(q)` on a float value is truncation toward
  zero, modelled by `pyInt`.
* The human-readable breakdown log `score_log` is modelled structurally: each
  appended entry is the pair of the formula step it belongs to and its signed
  point delta, in the exact append order of the code.
-/

/-- The known Tornado Cash router address constant `TORNADO_CASH_ROUTER`
(line 24 of the source; already lower-case). -/
def TORNADO_CASH_ROUTER : String := "0x722122df12d4e14e13ac3b6895a86e84145b6967"

/-- Python `s.lower()` on the ASCII addresses the core compares: lower-case
every character of the string. -/
def pyLower (s : String) : String := String.mk (s.data.map Char.toLower)

/-- A normal (Etherscan `txlist`) transaction record, restricted to the fields
the core reads: `timeStamp` (parsed with `int`), `to` and `contractAddress`
(read with `.get`, so possibly missing), and `isError`. -/
structure Tx where
  timeStamp : Int
  toAddress : Option String
  contractAddress : Option String
  isError : Option String
deriving DecidableEq, Repr

/-- An ERC-20 token transfer record (Etherscan `tokentx`), restricted to the
fields the rug-pull detector reads (all accessed unconditionally with
`tx[...]`): `contractAddress`, `to`, `from` and the parsed integer `value`. -/
structure TokenTx where
  contractAddress : String
  toAddress : String
  fromAddress : String
  value : Int
deriving DecidableEq, Repr

/-- Python truthiness of an optional string: `None` and the empty string are
falsy, every other string truthy. -/
def optTruthy (o : Option String) : Bool :=
  match o with
  | none => false
  | some s => !s.isEmpty

/-- Python `int(q)` applied to a (rational-valued) float: truncation toward
zero. -/
def pyInt (q : Rat) : Int :=
  if 0 ≤ q then ⌊q⌋ else ⌈q⌉

/-- Embedding of `get_wallet_age_from_tx_list` (lines 158-162): `0` on an
empty list, otherwise the whole number of days elapsed between the injected
current time `now` and the timestamp of the first element of the list. -/
def get_wallet_age_from_tx_list (now : Int) (transactions : List Tx) : Int :=
  match transactions with
  | [] => 0
  | first_tx :: _ => (now - first_tx.timeStamp).fdiv 86400

/-- Embedding of `check_tornado_interaction_from_tx_list` (lines 164-169):
scan the list and return `true` on the first transaction whose lower-cased
`to` field (default `""`) equals `TORNADO_CASH_ROUTER`. -/
def check_tornado_interaction_from_tx_list (transactions : List Tx) : Bool :=
  transactions.any (fun tx => pyLower (tx.toAddress.getD "") == TORNADO_CASH_ROUTER)

/-- Embedding of `get_failed_tx_rate_from_tx_list` (lines 171-175): `(0, 0.0)`
on an empty list, otherwise the pair of the failed count (transactions whose
`isError` is the string `"1"`) and the failure percentage. -/
def get_failed_tx_rate_from_tx_list (transactions : List Tx) : Nat × Rat :=
  match transactions with
  | [] => (0, 0)
  | l@(_ :: _) =>
    let total_tx := l.length
    let failed_tx := l.countP (fun tx => tx.isError == some "1")
    (failed_tx,
      if total_tx > 0 then (failed_tx : Rat) / (total_tx : Rat) * 100 else 0)

/-- The deployed-contract set of `detect_rug_pulls` (line 183): lower-cased
`contractAddress` of every normal transaction having a truthy
`contractAddress` and a falsy `to`, deduplicated (a Python `set`). -/
def deployed_contracts (normal_txs : List Tx) : List String :=
  (normal_txs.filterMap (fun tx =>
    if optTruthy tx.contractAddress && !optTruthy tx.toAddress then
      some (pyLower (tx.contractAddress.getD ""))
    else none)).dedup

/-- One iteration of the inner loop of `detect_rug_pulls` (lines 192-198):
given the running `(total_in, total_out)` pair and one token transfer, add the
transfer value to `total_in` when the wallet is the recipient and to
`total_out` when the wallet is the sender, provided the transfer is on the
contract under scrutiny. -/
def rug_step (wallet_address_lower contract : String) (acc : Int × Int)
    (tx : TokenTx) : Int × Int :=
  if pyLower tx.contractAddress == contract then
    let acc1 :=
      if pyLower tx.toAddress == wallet_address_lower then
        (acc.1 + tx.value, acc.2)
      else acc
    if pyLower tx.fromAddress == wallet_address_lower then
      (acc1.1, acc1.2 + tx.value)
    else acc1
  else acc

/-- The inner loop of `detect_rug_pulls` (lines 190-198): fold over the token
transfers, accumulating `(total_in, total_out)` for one deployed contract. -/
def contract_totals (wallet_address_lower contract : String)
    (token_txs : List TokenTx) : Int × Int :=
  token_txs.foldl (rug_step wallet_address_lower contract) (0, 0)

/-- Embedding of `detect_rug_pulls` (lines 177-204): count the deployed
contracts whose totals satisfy `total_in > 0` and
`total_out / total_in > 0.90`, with the early returns of the code. -/
def detect_rug_pulls (wallet_address : String) (normal_txs : List Tx)
    (token_txs : List TokenTx) : Nat :=
  if normal_txs.isEmpty || token_txs.isEmpty then 0
  else
    let wallet_address_lower := pyLower wallet_address
    let deployed := deployed_contracts normal_txs
    if deployed.isEmpty then 0
    else
      deployed.countP (fun contract =>
        let t := contract_totals wallet_address_lower contract token_txs
        decide (0 < t.1) && decide ((0.90 : Rat) < (t.2 : Rat) / (t.1 : Rat)))

/-- Specification-side sum: total value of token transfers on `contract`
whose `to` is the wallet (all addresses compared lower-cased). -/
def total_in (wallet_address_lower contract : String)
    (token_txs : List TokenTx) : Int :=
  ((token_txs.filter (fun tx =>
    pyLower tx.contractAddress == contract &&
      pyLower tx.toAddress == wallet_address_lower)).map TokenTx.value).sum

/-- Specification-side sum: total value of token transfers on `contract`
whose `from` is the wallet (all addresses compared lower-cased). -/
def total_out (wallet_address_lower contract : String)
    (token_txs : List TokenTx) : Int :=
  ((token_txs.filter (fun tx =>
    pyLower tx.contractAddress == contract &&
      pyLower tx.fromAddress == wallet_address_lower)).map TokenTx.value).sum

/-! Scoring factors (lines 255-296).  Each factor is the point delta of one
formula step; `calculate_reputation_score` combines them exactly as the code
does. -/

/-- Age bonus (line 259): `min(20, wallet_age_days // 30)` (Python `//` is
floor division, `Int.fdiv`). -/
def age_score (wallet_age_days : Int) : Int :=
  min 20 (wallet_age_days.fdiv 30)

/-- Swap-activity bonus (line 263): `min(20, uniswap_tx_count // 10)`. -/
def uniswap_score (uniswap_tx_count : Nat) : Nat :=
  min 20 (uniswap_tx_count / 10)

/-- Governance bonus (line 271): `min(15, vote_count * 2)`. -/
def vote_score (vote_count : Nat) : Nat :=
  min 15 (vote_count * 2)

/-- Liquidation penalty (line 276): `liquidation_count * 20`. -/
def liquidation_penalty (liquidation_count : Nat) : Nat :=
  liquidation_count * 20

/-- Mixer penalty (lines 280-283): a flat `40` subtracted iff the tornado
interaction flag is set, `0` otherwise. -/
def tornado_penalty (tornado_interaction : Bool) : Nat :=
  if tornado_interaction then 40 else 0

/-- Failed-transaction penalty (lines 285-288): `int(failed_tx_rate / 10) * 5`
when the rate exceeds 20, otherwise `0`. -/
def failed_tx_penalty (failed_tx_rate : Rat) : Int :=
  if failed_tx_rate > 20 then pyInt (failed_tx_rate / 10) * 5 else 0

/-- Rug-pull penalty (line 292): `rug_pull_events * 50`. -/
def rug_pull_penalty (rug_pull_events : Nat) : Nat :=
  rug_pull_events * 50

/-- The formula steps, in the fixed evaluation order of the code. -/
inductive Step where
  | age
  | swaps
  | votes
  | liquidation
  | mixer
  | failedTx
  | rugPull
deriving DecidableEq, Repr

/-- Embedding of the breakdown log `score_log` of
`calculate_reputation_score` (lines 256-294): each appended entry is modelled
as the pair of its formula step and its signed point delta, in the exact
append order of the code.  The mixer entry is appended inside the
`if tornado_interaction:` branch only. -/
def score_log (wallet_age_days : Int)
    (uniswap_tx_count vote_count liquidation_count : Nat)
    (tornado_interaction : Bool) (failed_tx_rate : Rat)
    (rug_pull_events : Nat) : List (Step × Int) :=
  [(Step.age, age_score wallet_age_days),
   (Step.swaps, (uniswap_score uniswap_tx_count : Int)),
   (Step.votes, (vote_score vote_count : Int)),
   (Step.liquidation, -(liquidation_penalty liquidation_count : Int))]
  ++ (if tornado_interaction then [(Step.mixer, -(40 : Int))] else [])
  ++ [(Step.failedTx, -failed_tx_penalty failed_tx_rate),
      (Step.rugPull, -(rug_pull_penalty rug_pull_events : Int))]

/-- Embedding of the score computation of `calculate_reputation_score`
(lines 255-296): base 50, the three bonuses added, the four penalties
subtracted (the mixer penalty is 0 when the flag is false, matching the
conditional subtraction of the code), then `max(0, min(100, int(total)))`.
All summands are integers, so the final `int(...)` is the identity. -/
def calculate_reputation_score (wallet_age_days : Int)
    (uniswap_tx_count vote_count liquidation_count : Nat)
    (tornado_interaction : Bool) (failed_tx_rate : Rat)
    (rug_pull_events : Nat) : Int :=
  let base_score : Int :=
    50 + age_score wallet_age_days + (uniswap_score uniswap_tx_count : Int)
      + (vote_score vote_count : Int)
      - (liquidation_penalty liquidation_count : Int)
      - (tornado_penalty tornado_interaction : Int)
      - failed_tx_penalty failed_tx_rate
      - (rug_pull_penalty rug_pull_events : Int)
  max 0 (min 100 base_score)

/-- The whole analysis pipeline of `calculate_reputation_score` with the
current time and the pre-fetched inputs injected: derive every signal from
the transaction lists, then produce the breakdown log and the final score.
The three Graph-provider counts (`uniswap_tx_count`, `liquidation_count`,
`vote_count`) are opaque externally supplied numbers. -/
def reputation_pipeline (now : Int) (wallet_address : String)
    (all_tx : List Tx) (all_token_tx : List TokenTx)
    (uniswap_tx_count liquidation_count vote_count : Nat) :
    List (Step × Int) × Int :=
  let wallet_age_days := get_wallet_age_from_tx_list now all_tx
  let tornado_interaction := check_tornado_interaction_from_tx_list all_tx
  let failed_tx_rate := (get_failed_tx_rate_from_tx_list all_tx).2
  let rug_pull_events := detect_rug_pulls wallet_address all_tx all_token_tx
  (score_log wallet_age_days uniswap_tx_count vote_count liquidation_count
      tornado_interaction failed_tx_rate rug_pull_events,
   calculate_reputation_score wallet_age_days uniswap_tx_count vote_count
      liquidation_count tornado_interaction failed_tx_rate rug_pull_events)

/-- Concrete scenario wallet address (already lower-case). -/
def rugWallet : String := "0xaaa"

/-- A contract-creation transaction of the scenario wallet: absent `to`,
contract address `0xccc`. -/
def rugDeployTx : Tx :=
  { timeStamp := 0, toAddress := none, contractAddress := some "0xccc",
    isError := some "0" }

/-- A transfer of 1000 tokens of contract `0xccc` to the scenario wallet. -/
def rugTransferIn : TokenTx :=
  { contractAddress := "0xccc", toAddress := "0xaaa", fromAddress := "0xccc",
    value := 1000 }

/-- A transfer of 950 tokens of contract `0xccc` out of the scenario
wallet. -/
def rugTransferOut950 : TokenTx :=
  { contractAddress := "0xccc", toAddress := "0xbbb", fromAddress := "0xaaa",
    value := 950 }

/-- A transfer of 900 tokens of contract `0xccc` out of the scenario
wallet. -/
def rugTransferOut900 : TokenTx :=
  { contractAddress := "0xccc", toAddress := "0xbbb", fromAddress := "0xaaa",
    value := 900 }

/-- A transaction carrying the failure marker `isError = "1"`. -/
def sampleFailedTx : Tx :=
  { timeStamp := 0, toAddress := some "0xbbb", contractAddress := none,
    isError := some "1" }

/-- A successful transaction (`isError = "0"`). -/
def sampleOkTx : Tx :=
  { timeStamp := 0, toAddress := some "0xbbb", contractAddress := none,
    isError := some "0" }

/-- A concrete list of ten transactions, the first three of which carry the
failure marker. -/
def sampleTxs : List Tx :=
  List.replicate 3 sampleFailedTx ++ List.replicate 7 sampleOkTx

/-! Helper lemmas. -/

/-- Unfolding of `total_in` on a cons cell. -/
theorem total_in_cons (w c : String) (tx : TokenTx) (l : List TokenTx) :
    total_in w c (tx :: l) =
      (if pyLower tx.contractAddress == c && pyLower tx.toAddress == w then
        tx.value else 0) + total_in w c l := by
  simp only [total_in, List.filter_cons]
  split <;> simp

/-- Unfolding of `total_out` on a cons cell. -/
theorem total_out_cons (w c : String) (tx : TokenTx) (l : List TokenTx) :
    total_out w c (tx :: l) =
      (if pyLower tx.contractAddress == c && pyLower tx.fromAddress == w then
        tx.value else 0) + total_out w c l := by
  simp only [total_out, List.filter_cons]
  split <;> simp

/-- The loop step of the rug-pull detector adds the transfer value to each
component according to the recipient and sender tests. -/
theorem rug_step_eq (w c : String) (a b : Int) (tx : TokenTx) :
    rug_step w c (a, b) tx =
      (a + (if pyLower tx.contractAddress == c && pyLower tx.toAddress == w
        then tx.value else 0),
       b + (if pyLower tx.contractAddress == c && pyLower tx.fromAddress == w
        then tx.value else 0)) := by
  unfold rug_step
  by_cases h1 : pyLower tx.contractAddress == c <;>
    by_cases h2 : pyLower tx.toAddress == w <;>
      by_cases h3 : pyLower tx.fromAddress == w <;>
        simp [h1, h2, h3]

/-- Folding the rug-pull loop step over a transfer list accumulates the two
specification-side sums `total_in` and `total_out`. -/
theorem foldl_rug_step (w c : String) (l : List TokenTx) (a b : Int) :
    l.foldl (rug_step w c) (a, b) = (a + total_in w c l, b + total_out w c l) := by
  induction l generalizing a b with
  | nil => simp [total_in, total_out]
  | cons tx rest ih =>
    rw [List.foldl_cons, rug_step_eq, ih, total_in_cons, total_out_cons]
    ring_nf

/-- The inner loop of `detect_rug_pulls` computes exactly
`(total_in, total_out)`. -/
theorem contract_totals_eq (w c : String) (l : List TokenTx) :
    contract_totals w c l = (total_in w c l, total_out w c l) := by
  unfold contract_totals
  rw [foldl_rug_step]
  simp

/-- With an empty transfer list both totals vanish. -/
theorem total_in_nil (w c : String) : total_in w c [] = 0 := rfl

/-- With an empty normal-transaction list no contract counts as deployed. -/
theorem deployed_contracts_nil : deployed_contracts [] = [] := rfl

/-- The rug-pull detector, early returns included, equals the count of
deployed contracts whose specification-side totals pass the
`total_in > 0` and ratio tests. -/
theorem detect_rug_pulls_eq_countP (wallet : String) (normal_txs : List Tx)
    (token_txs : List TokenTx) :
    detect_rug_pulls wallet normal_txs token_txs =
      (deployed_contracts normal_txs).countP (fun c =>
        decide (0 < total_in (pyLower wallet) c token_txs) &&
        decide ((0.90 : Rat) <
          (total_out (pyLower wallet) c token_txs : Rat) /
            (total_in (pyLower wallet) c token_txs : Rat))) := by
  unfold detect_rug_pulls
  split
  · rename_i h
    simp only [Bool.or_eq_true, List.isEmpty_iff] at h
    rcases h with h1 | h1
    · rw [h1, deployed_contracts_nil]
      simp
    · rw [h1]
      symm
      rw [List.countP_eq_zero]
      intro c hc
      simp [total_in_nil]
  · dsimp only
    split
    · rename_i hd
      rw [List.isEmpty_iff.mp hd]
      simp
    · apply List.countP_congr
      intro c hc
      rw [contract_totals_eq]

/-- C3: for every wallet address, transaction list and token-transfer list,
the rug-pull detector flags exactly the deployed contracts whose `total_in`
(sum of transfer values on the contract whose recipient is the wallet,
case-insensitively) is strictly positive and whose ratio
`total_out / total_in` strictly exceeds `0.90`; a contract with
`total_in = 0` is never flagged regardless of `total_out` (scenario with only
a 950-token outflow), a ratio of exactly `0.90` (1000 in, 900 out) is not
flagged, and a ratio of `0.95` (1000 in, 950 out) is flagged. -/
theorem rug_pull_detector_correct (wallet : String) (normal_txs : List Tx)
    (token_txs : List TokenTx) :
    (detect_rug_pulls wallet normal_txs token_txs =
      (deployed_contracts normal_txs).countP (fun c =>
        decide (0 < total_in (pyLower wallet) c token_txs ∧
          (total_out (pyLower wallet) c token_txs : Rat) /
            (total_in (pyLower wallet) c token_txs : Rat) > 0.90))) ∧
    detect_rug_pulls rugWallet [rugDeployTx] [rugTransferOut950] = 0 ∧
    detect_rug_pulls rugWallet [rugDeployTx]
      [rugTransferIn, rugTransferOut950] = 1 ∧
    detect_rug_pulls rugWallet [rugDeployTx]
      [rugTransferIn, rugTransferOut900] = 0 := by
  refine ⟨?_, ?_, ?_, ?_⟩
  · rw [detect_rug_pulls_eq_countP]
    apply List.countP_congr
    intro c hc
    simp [Bool.and_eq_true, decide_eq_true_eq, gt_iff_lt]
  · rw [detect_rug_pulls_eq_countP]
    rw [(by decide : deployed_contracts [rugDeployTx] = ["0xccc"])]
    rw [List.countP_cons, List.countP_nil]
    rw [(by decide :
      total_in (pyLower rugWallet) "0xccc" [rugTransferOut950] = 0)]
    simp
  · rw [detect_rug_pulls_eq_countP]
    rw [(by decide : deployed_contracts [rugDeployTx] = ["0xccc"])]
    rw [List.countP_cons, List.countP_nil]
    rw [(by decide : total_in (pyLower rugWallet) "0xccc"
      [rugTransferIn, rugTransferOut950] = 1000)]
    rw [(by decide : total_out (pyLower rugWallet) "0xccc"
      [rugTransferIn, rugTransferOut950] = 950)]
    norm_num
  · rw [detect_rug_pulls_eq_countP]
    rw [(by decide : deployed_contracts [rugDeployTx] = ["0xccc"])]
    rw [List.countP_cons, List.countP_nil]
    rw [(by decide : total_in (pyLower rugWallet) "0xccc"
      [rugTransferIn, rugTransferOut900] = 1000)]
    rw [(by decide : total_out (pyLower rugWallet) "0xccc"
      [rugTransferIn, rugTransferOut900] = 900)]
    norm_num

/-- C1: for every combination of signal inputs (wallet age, swap count, vote
count, liquidation count, mixer flag, failed-transaction rate, rug-pull
count), including all-zero and arbitrarily large penalty inputs, the final
reputation score is an integer in the closed interval [0, 100]. -/
theorem final_score_in_range (wallet_age_days : Int)
    (uniswap_tx_count vote_count liquidation_count : Nat)
    (tornado_interaction : Bool) (failed_tx_rate : Rat)
    (rug_pull_events : Nat) :
    0 ≤ calculate_reputation_score wallet_age_days uniswap_tx_count vote_count
        liquidation_count tornado_interaction failed_tx_rate rug_pull_events ∧
      calculate_reputation_score wallet_age_days uniswap_tx_count vote_count
        liquidation_count tornado_interaction failed_tx_rate rug_pull_events
        ≤ 100 :=
  ⟨le_max_left 0 _, max_le (by norm_num) (min_le_left _ _)⟩

/-- C2 counterexample: with the mixer flag false (and every other signal
zero) the breakdown log has six entries and no mixer-penalty entry, refuting
the claim that a mixer entry is present even when the flag is false. -/
theorem mixer_entry_missing_when_flag_false :
    (score_log 0 0 0 0 false 0 0).map Prod.fst =
      [Step.age, Step.swaps, Step.votes, Step.liquidation, Step.failedTx,
        Step.rugPull] ∧
    ¬ Step.mixer ∈ (score_log 0 0 0 0 false 0 0).map Prod.fst := by
  constructor
  · simp [score_log]
  · simp [score_log]

/-- C2 amended: for every combination of signal inputs the scorer emits one
breakdown entry per formula step in the fixed order age, swaps, votes,
liquidation, mixer, failed-tx, rug-pull, even when the point delta of the
step is zero, except the mixer-penalty step, whose entry is emitted only when
the mixer-interaction flag is true and is absent when it is false. -/
theorem score_log_steps (wallet_age_days : Int)
    (uniswap_tx_count vote_count liquidation_count : Nat)
    (tornado_interaction : Bool) (failed_tx_rate : Rat)
    (rug_pull_events : Nat) :
    (score_log wallet_age_days uniswap_tx_count vote_count liquidation_count
        tornado_interaction failed_tx_rate rug_pull_events).map Prod.fst =
      [Step.age, Step.swaps, Step.votes, Step.liquidation]
        ++ (if tornado_interaction then [Step.mixer] else [])
        ++ [Step.failedTx, Step.rugPull] := by
  cases tornado_interaction <;> simp [score_log]

/-- C4: with the current time an explicit injected parameter, the entire
scoring pipeline is deterministic — two runs over identical inputs produce
identical breakdown entry sequences and identical final scores. -/
theorem pipeline_deterministic (now1 now2 : Int) (w1 w2 : String)
    (txs1 txs2 : List Tx) (tok1 tok2 : List TokenTx)
    (swaps1 swaps2 liq1 liq2 votes1 votes2 : Nat)
    (hnow : now1 = now2) (hw : w1 = w2) (htx : txs1 = txs2)
    (htok : tok1 = tok2) (hswaps : swaps1 = swaps2) (hliq : liq1 = liq2)
    (hvotes : votes1 = votes2) :
    reputation_pipeline now1 w1 txs1 tok1 swaps1 liq1 votes1 =
      reputation_pipeline now2 w2 txs2 tok2 swaps2 liq2 votes2 := by
  subst hnow hw htx htok hswaps hliq hvotes
  rfl

/-- Witness for the determinism theorem at a concrete input. -/
theorem pipeline_deterministic_witness :
    reputation_pipeline 86400 "0xaaa" [] [] 0 0 0 =
      reputation_pipeline 86400 "0xaaa" [] [] 0 0 0 :=
  pipeline_deterministic 86400 86400 "0xaaa" "0xaaa" [] [] [] [] 0 0 0 0 0 0
    rfl rfl rfl rfl rfl rfl rfl

/-- C5: on the scenario age 365 days, 50 swaps, 10 votes, 1 liquidation,
mixer flag false, failed-transaction rate 25 and 0 rug pulls, the formula
steps contribute +12, +5, +15, -20, -0, -10, -0 and the final score is
exactly 52. -/
theorem end_to_end_scenario_52 :
    age_score 365 = 12 ∧ uniswap_score 50 = 5 ∧ vote_score 10 = 15 ∧
    liquidation_penalty 1 = 20 ∧ tornado_penalty false = 0 ∧
    failed_tx_penalty 25 = 10 ∧ rug_pull_penalty 0 = 0 ∧
    calculate_reputation_score 365 50 10 1 false 25 0 = 52 := by
  refine ⟨by decide, by decide, by decide, by decide, by decide, ?_,
    by decide, ?_⟩
  · norm_num [failed_tx_penalty, pyInt]
  · norm_num [calculate_reputation_score, age_score, uniswap_score,
      vote_score, liquidation_penalty, tornado_penalty, failed_tx_penalty,
      pyInt, rug_pull_penalty, (by decide : Int.fdiv 365 30 = 12)]

/-- C6: the mixer-interaction flag is true iff some transaction has a `to`
address equal, after lower-casing both sides, to the fixed mixer-router
constant; when the flag is true the penalty is exactly 40 points and when it
is false the penalty is 0, independent of the number of matches. -/
theorem tornado_flag_iff (transactions : List Tx) :
    (check_tornado_interaction_from_tx_list transactions = true ↔
      ∃ tx ∈ transactions,
        pyLower (tx.toAddress.getD "") = pyLower TORNADO_CASH_ROUTER) ∧
    tornado_penalty true = 40 ∧ tornado_penalty false = 0 := by
  refine ⟨?_, rfl, rfl⟩
  rw [(by decide : pyLower TORNADO_CASH_ROUTER = TORNADO_CASH_ROUTER)]
  simp [check_tornado_interaction_from_tx_list, List.any_eq_true]

/-- C7: for every non-negative failed-transaction rate, the failed-tx
penalty is `floor(rate / 10) * 5` when the rate strictly exceeds 20, and 0
otherwise. -/
theorem failed_tx_penalty_correct (failed_tx_rate : Rat)
    (hr : 0 ≤ failed_tx_rate) :
    failed_tx_penalty failed_tx_rate =
      if 20 < failed_tx_rate then ⌊failed_tx_rate / 10⌋ * 5 else 0 := by
  unfold failed_tx_penalty pyInt
  rw [if_pos (by positivity : (0 : Rat) ≤ failed_tx_rate / 10)]

/-- Witness for the failed-tx penalty theorem at rate 25. -/
theorem failed_tx_penalty_correct_witness :
    failed_tx_penalty 25 =
      if (20 : Rat) < 25 then ⌊(25 : Rat) / 10⌋ * 5 else 0 :=
  failed_tx_penalty_correct 25 (by norm_num)

/-- Closed form of the failed-tx-rate extractor: the empty case and the
count/percentage pair in one conditional expression. -/
theorem failed_tx_rate_eq (transactions : List Tx) :
    get_failed_tx_rate_from_tx_list transactions =
      if transactions.isEmpty then (0, 0)
      else (transactions.countP (fun tx => tx.isError == some "1"),
        (transactions.countP (fun tx => tx.isError == some "1") : Rat) /
          (transactions.length : Rat) * 100) := by
  cases transactions with
  | nil => rfl
  | cons t rest => simp [get_failed_tx_rate_from_tx_list]

/-- C8: the failed-transaction-rate extractor returns `(0, 0)` on the empty
list and otherwise the pair of the failed count and the failure percentage;
the percentage always lies in [0, 100]; ten transactions with three failures
yield `(3, 30)`. -/
theorem failed_tx_rate_correct (transactions : List Tx) :
    (get_failed_tx_rate_from_tx_list transactions =
      if transactions.isEmpty then (0, 0)
      else (transactions.countP (fun tx => tx.isError == some "1"),
        (transactions.countP (fun tx => tx.isError == some "1") : Rat) /
          (transactions.length : Rat) * 100)) ∧
    0 ≤ (get_failed_tx_rate_from_tx_list transactions).2 ∧
    (get_failed_tx_rate_from_tx_list transactions).2 ≤ 100 ∧
    get_failed_tx_rate_from_tx_list sampleTxs = (3, 30) := by
  refine ⟨failed_tx_rate_eq transactions, ?_, ?_, ?_⟩
  · rw [failed_tx_rate_eq]
    split
    · norm_num
    · positivity
  · rw [failed_tx_rate_eq]
    split
    · norm_num
    · rename_i hne
      have hlen : 0 < transactions.length := by
        cases transactions with
        | nil => simp at hne
        | cons a l => simp
      have hlenQ : (0 : Rat) < (transactions.length : Rat) := by
        exact_mod_cast hlen
      have hcle : (transactions.countP
            (fun tx => tx.isError == some "1") : Rat)
          ≤ (transactions.length : Rat) := by
        exact_mod_cast List.countP_le_length _
      calc (transactions.countP (fun tx => tx.isError == some "1") : Rat) /
            (transactions.length : Rat) * 100
          ≤ 1 * 100 := by
            apply mul_le_mul_of_nonneg_right _ (by norm_num)
            rw [div_le_one hlenQ]
            exact hcle
        _ = 100 := by norm_num
  · rw [failed_tx_rate_eq]
    rw [(by decide : sampleTxs.isEmpty = false)]
    rw [(by decide :
      sampleTxs.countP (fun tx => tx.isError == some "1") = 3)]
    rw [(by decide : sampleTxs.length = 10)]
    norm_num

/-- C9: the wallet-age extractor returns 0 on the empty list, and otherwise
the whole number of days (the floor of the elapsed seconds divided by 86400)
between the injected current time and the timestamp of the first list
element, independent of the rest of the list. -/
theorem wallet_age_correct (now : Int) (tx : Tx) (rest other : List Tx) :
    get_wallet_age_from_tx_list now [] = 0 ∧
    get_wallet_age_from_tx_list now (tx :: rest) =
      ⌊((now - tx.timeStamp : Int) : Rat) / 86400⌋ ∧
    get_wallet_age_from_tx_list now (tx :: rest) =
      get_wallet_age_from_tx_list now (tx :: other) := by
  refine ⟨rfl, ?_, rfl⟩
  show (now - tx.timeStamp).fdiv 86400 = _
  have h1 : (now - tx.timeStamp).fdiv 86400 =
      (now - tx.timeStamp) / ((86400 : Nat) : Int) := by
    rw [Int.fdiv_eq_ediv _ (by norm_num)]
    norm_num
  rw [h1, ← Rat.floor_intCast_div_natCast]
  norm_num

/-- Floor division by a positive constant is monotone in the dividend. -/
theorem fdiv_mono (a b d : Int) (hd : 0 < d) (h : a ≤ b) :
    a.fdiv d ≤ b.fdiv d := by
  rw [Int.fdiv_eq_ediv _ (le_of_lt hd), Int.fdiv_eq_ediv _ (le_of_lt hd)]
  exact Int.ediv_le_ediv hd h

/-- The failed-tx penalty is monotone on non-negative rates. -/
theorem failed_tx_penalty_mono (r1 r2 : Rat) (h0 : 0 ≤ r1) (h : r1 ≤ r2) :
    failed_tx_penalty r1 ≤ failed_tx_penalty r2 := by
  have e1 : failed_tx_penalty r1 = if 20 < r1 then ⌊r1 / 10⌋ * 5 else 0 := by
    unfold failed_tx_penalty pyInt
    rw [if_pos (by positivity : (0 : Rat) ≤ r1 / 10)]
  have h02 : (0 : Rat) ≤ r2 := le_trans h0 h
  have e2 : failed_tx_penalty r2 = if 20 < r2 then ⌊r2 / 10⌋ * 5 else 0 := by
    unfold failed_tx_penalty pyInt
    rw [if_pos (by positivity : (0 : Rat) ≤ r2 / 10)]
  rw [e1, e2]
  by_cases h1 : 20 < r1
  · rw [if_pos h1, if_pos (lt_of_lt_of_le h1 h)]
    have hfl : ⌊r1 / 10⌋ ≤ ⌊r2 / 10⌋ := by
      apply Int.floor_le_floor
      gcongr
    exact mul_le_mul_of_nonneg_right hfl (by norm_num)
  · rw [if_neg h1]
    by_cases h2 : 20 < r2
    · rw [if_pos h2]
      have hnn : (0 : Int) ≤ ⌊r2 / 10⌋ := by
        apply Int.floor_nonneg.mpr
        positivity
      exact mul_nonneg hnn (by norm_num)
    · rw [if_neg h2]

/-- C10: the reputation score is monotone in each signal with the others
held fixed — non-decreasing in wallet age, swap count and vote count, and
non-increasing in liquidation count, rug-pull count and failed-tx rate (on
non-negative rates).  All six monotonicities are combined into one
inequality: smaller bonus signals and larger penalty signals on the left. -/
theorem score_monotone (a1 a2 : Int) (s1 s2 v1 v2 l1 l2 g1 g2 : Nat)
    (flag : Bool) (r1 r2 : Rat)
    (ha : a1 ≤ a2) (hs : s1 ≤ s2) (hv : v1 ≤ v2) (hl : l1 ≤ l2)
    (hg : g1 ≤ g2) (hr0 : 0 ≤ r1) (hr : r1 ≤ r2) :
    calculate_reputation_score a1 s1 v1 l2 flag r2 g2 ≤
      calculate_reputation_score a2 s2 v2 l1 flag r1 g1 := by
  have hA : age_score a1 ≤ age_score a2 :=
    min_le_min le_rfl (fdiv_mono _ _ _ (by norm_num) ha)
  have hS : uniswap_score s1 ≤ uniswap_score s2 :=
    min_le_min le_rfl (Nat.div_le_div_right hs)
  have hV : vote_score v1 ≤ vote_score v2 :=
    min_le_min le_rfl (Nat.mul_le_mul_right 2 hv)
  have hL : liquidation_penalty l1 ≤ liquidation_penalty l2 :=
    Nat.mul_le_mul_right 20 hl
  have hG : rug_pull_penalty g1 ≤ rug_pull_penalty g2 :=
    Nat.mul_le_mul_right 50 hg
  have hF : failed_tx_penalty r1 ≤ failed_tx_penalty r2 :=
    failed_tx_penalty_mono r1 r2 hr0 hr
  unfold calculate_reputation_score
  apply max_le_max le_rfl
  apply min_le_min le_rfl
  have hSi : (uniswap_score s1 : Int) ≤ (uniswap_score s2 : Int) :=
    Int.ofNat_le.mpr hS
  have hVi : (vote_score v1 : Int) ≤ (vote_score v2 : Int) :=
    Int.ofNat_le.mpr hV
  have hLi : (liquidation_penalty l1 : Int) ≤ (liquidation_penalty l2 : Int) :=
    Int.ofNat_le.mpr hL
  have hGi : (rug_pull_penalty g1 : Int) ≤ (rug_pull_penalty g2 : Int) :=
    Int.ofNat_le.mpr hG
  omega

/-- Witness for the monotonicity theorem at concrete inputs. -/
theorem score_monotone_witness :
    calculate_reputation_score 0 0 0 1 false 25 1 ≤
      calculate_reputation_score 365 50 10 0 false 0 0 :=
  score_monotone 0 365 0 50 0 10 0 1 0 1 false 0 25 (by norm_num)
    (by norm_num) (by norm_num) (by norm_num) (by norm_num) (by norm_num)
    (by norm_num)
